import Mathlib

/-!
Shallow embedding of the complaint-site Netlify functions
(`submitComplaint.js`, `updateComplaint.js`, `getComplaints.js`,
`getComplaintById.js`) and proofs about them.

Modelling conventions:
* JavaScript strings are Lean `String`s viewed as lists of characters;
  `s.length` is modelled by the character count.
* JSON values produced by `JSON.parse` are the inductive `JValue`;
  the outcome of `JSON.parse` itself (a platform primitive, not code of
  this repository) is passed to the handler as `Option JValue`
  (`none` = the parse threw, caught as "Invalid JSON").
* Wall-clock reads (`Date.now()`, `new Date()`) and the random uuid group
  used by `createComplaintId` are external inputs, passed as parameters.
* The external email validator `validator.isEmail` is passed to the
  handler as a function parameter.
* Database traffic is recorded as a list of effects; the handler body
  never performs I/O.
-/

namespace ComplaintSite

/-! ### JavaScript string sanitization (`sanitizeString`) -/

/-- The characters matched by the JavaScript class `\s` (plus U+FEFF and
U+00A0), which is what `validator.trim` strips from both ends. -/
def isJsWhitespace (c : Char) : Bool :=
  ([0x20, 0x09, 0x0A, 0x0B, 0x0C, 0x0D, 0xA0, 0x1680,
    0x2028, 0x2029, 0x202F, 0x205F, 0x3000, 0xFEFF] : List Nat).contains c.toNat
  || (0x2000 ≤ c.toNat && c.toNat ≤ 0x200A)

/-- Strip leading JS whitespace. -/
def ltrimChars (cs : List Char) : List Char := cs.dropWhile isJsWhitespace

/-- Strip trailing JS whitespace. -/
def rtrimChars (cs : List Char) : List Char :=
  (cs.reverse.dropWhile isJsWhitespace).reverse

/-- Model of `validator.trim`: strip whitespace from both ends. -/
def jsTrimChars (cs : List Char) : List Char := rtrimChars (ltrimChars cs)

/-- The character-list body of `sanitizeString` applied to a string input:
trim, then strip NUL bytes (the replace of the NUL regex), then truncate
(`s.slice(0, maxLen)`). -/
def sanitizeChars (cs : List Char) (maxLen : Nat) : List Char :=
  (((jsTrimChars cs).filter (fun c => c != '\x00')).take maxLen)

/-- Body of `sanitizeString` on an actual string input. -/
def sanitizeJsStr (s : String) (maxLen : Nat) : String :=
  String.mk (sanitizeChars s.data maxLen)

/-! ### JSON values and JavaScript field access -/

/-- Values `JSON.parse` can produce. -/
inductive JValue where
  | jnull
  | jbool (b : Bool)
  | jnum (n : Int)
  | jstr (s : String)
  | jarr (elems : List JValue)
  | jobj (fields : List (String × JValue))

/-- First-match lookup in the field list of a JS object (keys are unique
in objects built by `JSON.parse`, and in Mongo documents). -/
def lookupField : List (String × JValue) → String → Option JValue
  | [], _ => none
  | (k, v) :: rest, key => if k = key then some v else lookupField rest key

/-- JS property access `v.key`, as used on the parsed payload: an object
yields its field (or `undefined` = `none`); any other non-null value
yields `undefined`. Access on `null` throws in JS; the handler models
that throw explicitly before any access happens. -/
def jsGet : JValue → String → Option JValue
  | .jobj fields, key => lookupField fields key
  | _, _ => none

/-- Model of `sanitizeString(input, maxLen)`: non-string input (including a missing
field, i.e. `undefined`) is coerced to the empty string. -/
def sanitizeString (input : Option JValue) (maxLen : Nat) : String :=
  match input with
  | some (.jstr s) => sanitizeJsStr s maxLen
  | _ => ""

/-- JS truthiness of a parsed JSON value. -/
def jsTruthy : JValue → Bool
  | .jnull => false
  | .jbool b => b
  | .jnum n => n != 0
  | .jstr s => s != ""
  | .jarr _ => true
  | .jobj _ => true

/-- Truth of the JS test that `typeof v` is the object type (true for
`null`, arrays and objects). -/
def jsTypeofObject : JValue → Bool
  | .jnull => true
  | .jarr _ => true
  | .jobj _ => true
  | _ => false

/-- The guard on the reporter field: it must be truthy and of JS object
type (`none` models the field being absent, i.e. `undefined`). -/
def reporterObjCheck : Option JValue → Bool
  | none => false
  | some v => jsTruthy v && jsTypeofObject v

/-! ### Complaint identifier synthesis (`createComplaintId`) -/

/-- Digit character for a base-36 digit, as produced by JS
`Number.prototype.toString(36)` (`0`-`9` then lowercase `a`-`z`). -/
def toBase36Digit (d : Nat) : Char :=
  if d < 10 then Char.ofNat (48 + d) else Char.ofNat (87 + d)

/-- Base-36 digit list of `n`, most significant first. The first
argument is structural fuel; starting it at `n` (see `toBase36`) it can
never run out, since the value shrinks by a factor of 36 per step. -/
def toBase36Aux : Nat → Nat → List Char
  | 0, n => [toBase36Digit (n % 36)]
  | fuel + 1, n =>
    if n < 36 then [toBase36Digit n]
    else toBase36Aux fuel (n / 36) ++ [toBase36Digit (n % 36)]

/-- Base-36 rendering of a natural number, as `toString(36)` of a
JS timestamp produces. -/
def toBase36 (n : Nat) : List Char := toBase36Aux n n

/-- The ASCII fragment of `String.prototype.toUpperCase`, applied
characterwise (the argument is a uuid hex group, so ASCII suffices). -/
def jsToUpperChar (c : Char) : Char :=
  if 'a' ≤ c ∧ c ≤ 'z' then Char.ofNat (c.toNat - 32) else c

/-- Model of `createComplaintId`: the prefix COMP, the timestamp in base
36, and the uppercased uuid group, joined by dashes. `now` and the uuid
group `rnd` are external inputs. -/
def createComplaintId (now : Nat) (rnd : List Char) : String :=
  "COMP-" ++ String.mk (toBase36 now) ++ "-" ++ String.mk (rnd.map jsToUpperChar)

/-- The first dash-separated group of a v4 uuid: 8 lowercase hex chars
(decimal digits and the first six lowercase letters). -/
def uuidGroupChars : List Char :=
  (List.range 10).map (fun d => Char.ofNat (48 + d))
    ++ (List.range 6).map (fun d => Char.ofNat (97 + d))

/-! ### In-memory rate limiter (`isRateLimited`) -/

/-- One `rateMap` entry: `{ count, first }`. -/
structure RateEntry where
  count : Nat
  first : Int
deriving DecidableEq, Repr

/-- The `rateMap` (a JS `Map` keyed by IP), as an association list. -/
abbrev RateState := List (String × RateEntry)

def rateLookup : RateState → String → Option RateEntry
  | [], _ => none
  | (k, e) :: rest, ip => if k = ip then some e else rateLookup rest ip

def rateSet : RateState → String → RateEntry → RateState
  | [], ip, e => [(ip, e)]
  | (k, e') :: rest, ip, e =>
    if k = ip then (ip, e) :: rest else (k, e') :: rateSet rest ip e

def RATE_LIMIT_WINDOW_MS : Int := 60 * 1000

def RATE_LIMIT_MAX : Nat := 6

/-- Model of `isRateLimited(ip)` at wall-clock `now`, returning the
decision and the updated `rateMap`. -/
def isRateLimited (st : RateState) (ip : String) (now : Int) : Bool × RateState :=
  let entry := (rateLookup st ip).getD ⟨0, now⟩
  if now - entry.first > RATE_LIMIT_WINDOW_MS then
    (false, rateSet st ip ⟨1, now⟩)
  else
    let e : RateEntry := ⟨entry.count + 1, entry.first⟩
    (decide (e.count > RATE_LIMIT_MAX), rateSet st ip e)

/-- A sequence of calls to `isRateLimited` for one key at given times,
threading the map through; returns the per-call decisions. -/
def runCalls (ip : String) : List Int → RateState → List Bool × RateState
  | [], st => ([], st)
  | t :: ts, st =>
    let r := isRateLimited st ip t
    let rest := runCalls ip ts r.2
    (r.1 :: rest.1, rest.2)

/-! ### The submit handler -/

/-- The sanitized reporter object; a field is present iff its sanitized
value was non-empty (`if (rName) reporter.name = rName`, etc.). -/
structure Reporter where
  name : Option String
  email : Option String
  username : Option String
deriving DecidableEq, Repr

/-- Attach a string field only when it is non-empty (the truthiness
test the handler applies before each reporter sub-field). -/
def optOfString (s : String) : Option String :=
  if s = "" then none else some s

/-- The document built as `complaintDoc` and passed to `insertOne`.
`reporter = none` models the spread `...(reporter ? { reporter } : {})`
when the `reporter` variable is still `null`. -/
structure ComplaintDoc where
  complaintId : String
  department : String
  program : String
  title : String
  details : String
  status : String
  createdAt : Nat
  updatedAt : Nat
  reporter : Option Reporter
deriving DecidableEq, Repr

/-- Database operations the handler can attempt, in order. -/
inductive DbEffect where
  | connect
  | insertOne (doc : ComplaintDoc)
deriving DecidableEq, Repr

/-- HTTP-level result of the submit handler. -/
inductive SubmitResponse where
  | preflight
  | methodNotAllowed
  | rejected (statusCode : Nat) (error : String)
  | thrown
  | created (complaintId : String)
deriving DecidableEq, Repr

structure SubmitOutcome where
  response : SubmitResponse
  effects : List DbEffect
  rateState : RateState
deriving DecidableEq, Repr

/-- Shallow embedding of `exports.handler` in `submitComplaint.js`
(the complete variant with sanitization, secret gate and rate limiter).
`parseResult` is the outcome of running `JSON.parse` on the raw body,
with an empty body defaulting to an empty object (`none` = the parse
threw). `ip` is the already-resolved caller key.
On success the response assumes the insert succeeds; a storage failure
would be mapped to 500 by the surrounding `catch`, outside this model. -/
def submitHandler (isEmail : String → Bool) (functionSecret providedSecret : String)
    (httpMethod : String) (parseResult : Option JValue) (ip : String)
    (st : RateState) (now : Nat) (rnd : List Char) : SubmitOutcome :=
  if httpMethod = "OPTIONS" then ⟨.preflight, [], st⟩
  else if httpMethod ≠ "POST" then ⟨.methodNotAllowed, [], st⟩
  else if functionSecret ≠ "" ∧ providedSecret ≠ functionSecret then
    ⟨.rejected 401 "Unauthorized", [], st⟩
  else
    let r := isRateLimited st ip (now : Int)
    if r.1 then ⟨.rejected 429 "Too many submissions. Try again later.", [], r.2⟩
    else
      match parseResult with
      | none => ⟨.rejected 400 "Invalid JSON", [], r.2⟩
      | some .jnull => ⟨.thrown, [], r.2⟩
      | some payload =>
        let department := sanitizeString (jsGet payload "department") 100
        let program := sanitizeString (jsGet payload "program") 100
        let title := sanitizeString (jsGet payload "title") 200
        let details := sanitizeString (jsGet payload "details") 4000
        let rep := jsGet payload "reporter"
        let repActive := reporterObjCheck rep
        let repV := rep.getD .jnull
        let rName := sanitizeString (jsGet repV "name") 100
        let rEmail := sanitizeString (jsGet repV "email") 254
        let rUsername := sanitizeString (jsGet repV "username") 100
        if repActive ∧ rEmail ≠ "" ∧ isEmail rEmail = false then
          ⟨.rejected 400 "Invalid reporter email", [], r.2⟩
        else
          let reporter : Option Reporter :=
            if repActive then
              some ⟨optOfString rName, optOfString rEmail, optOfString rUsername⟩
            else none
          if department = "" ∨ program = "" ∨ title = "" ∨ details = "" then
            ⟨.rejected 400 "Missing required fields", [], r.2⟩
          else if title.length < 5 then
            ⟨.rejected 400 "Complaint title too short", [], r.2⟩
          else if details.length < 10 then
            ⟨.rejected 400 "Complaint details too short", [], r.2⟩
          else
            let complaintId := createComplaintId now rnd
            ⟨.created complaintId,
             [.connect, .insertOne
               ⟨complaintId, department, program, title, details,
                "pending", now, now, reporter⟩],
             r.2⟩

/-! ### The status-update handler (`updateComplaint.js`) -/

/-- The action → status mapping at the top of the update handler:
`let status = action; if (action === "approve") status = "approved";
if (action === "reject") status = "rejected";`. -/
def mapActionToStatus (action : String) : String :=
  let status := action
  let status := if action = "approve" then "approved" else status
  let status := if action = "reject" then "rejected" else status
  status

/-- Mongo `$set` of a single field: replace the field if present,
append it otherwise. -/
def setField (doc : List (String × JValue)) (key : String) (v : JValue) :
    List (String × JValue) :=
  match doc with
  | [] => [(key, v)]
  | (k, v') :: rest =>
    if k = key then (key, v) :: rest else (k, v') :: setField rest key v

/-- Does the stored value equal the query string (Mongo equality between
a stored field and a string filter value)? -/
def isStrVal (v : Option JValue) (s : String) : Bool :=
  match v with
  | some (.jstr t) => t == s
  | _ => false

/-- Model of the updateOne call on the collection, with an id filter and
a status-only set: update the first matching document (ids are unique). -/
def updateOneSetStatus (store : List (List (String × JValue))) (id : String)
    (status : String) : List (List (String × JValue)) :=
  match store with
  | [] => []
  | d :: ds =>
    if isStrVal (lookupField d "_id") id then
      setField d "status" (.jstr status) :: ds
    else
      d :: updateOneSetStatus ds id status

/-- The whole data operation of the update handler: map the action to a
status, then `$set` it on the matched document. -/
def updateComplaintHandler (store : List (List (String × JValue)))
    (id action : String) : List (List (String × JValue)) :=
  updateOneSetStatus store id (mapActionToStatus action)

/-! ### The fetch-by-identifier handler (`getComplaintById.js`) -/

/-- Model of the findOne call with a complaintId filter: first document
whose `complaintId` field equals the requested string. -/
def findOneByComplaintId (store : List (List (String × JValue)))
    (cid : String) : Option (List (String × JValue)) :=
  match store with
  | [] => none
  | d :: ds =>
    if isStrVal (lookupField d "complaintId") cid then some d
    else findOneByComplaintId ds cid

/-- JS falsiness of a possibly-absent field value, as tested by
`complaint.status || "pending"`. -/
def jsFalsyOpt (v : Option JValue) : Bool :=
  match v with
  | none => true
  | some w => !(jsTruthy w)

/-- JS or-else: the stored value if truthy, the default otherwise. -/
def jsOrDefault (v : Option JValue) (dflt : JValue) : JValue :=
  if jsFalsyOpt v then dflt else (v.getD dflt)

/-- Result of the fetch-by-identifier handler. The `ok` body is the
object literal built in the 200 response; a value of `none` models a
field that was `undefined` on the stored document (dropped by
`JSON.stringify`). -/
inductive FetchResult where
  | badRequest
  | notFound
  | ok (body : List (String × Option JValue))

/-- Shallow embedding of the `getComplaintById` handler: require a
truthy `complaintId`, find the document, and return only the safe
fields, defaulting `status` to `"pending"`. The requested identifier is
modelled as an optional string (`none` = absent from the body). -/
def getComplaintByIdHandler (store : List (List (String × JValue)))
    (cid : Option String) : FetchResult :=
  match cid with
  | none => .badRequest
  | some c =>
    if c = "" then .badRequest
    else
      match findOneByComplaintId store c with
      | none => .notFound
      | some complaint =>
        .ok [("complaintId", lookupField complaint "complaintId"),
             ("title", lookupField complaint "title"),
             ("status", some (jsOrDefault (lookupField complaint "status")
                                          (.jstr "pending"))),
             ("createdAt", lookupField complaint "createdAt")]

/-! ### Derived notions used by the theorems -/

/-- Character class of the middle identifier group: base-36 lowercase. -/
def isBase36LowerChar (c : Char) : Bool :=
  ('0' ≤ c && c ≤ '9') || ('a' ≤ c && c ≤ 'z')

/-- Character class of the trailing identifier group: uppercase
alphanumeric. -/
def isUpperAlnumChar (c : Char) : Bool :=
  ('0' ≤ c && c ≤ '9') || ('A' ≤ c && c ≤ 'Z')

/-- Whether a parse outcome carries a payload whose reporter field
passes the object guard of the handler. -/
def reporterCheckOfParse : Option JValue → Bool
  | none => false
  | some p => reporterObjCheck (jsGet p "reporter")

/-- The sanitized reporter email the handler extracts from a payload. -/
def reporterEmailOf (payload : JValue) : String :=
  sanitizeString (jsGet ((jsGet payload "reporter").getD .jnull) "email") 254

/-! ## Helper lemmas on trimming -/

theorem dropWhile_idem (p : Char → Bool) (l : List Char) :
    (l.dropWhile p).dropWhile p = l.dropWhile p := by
  induction l with
  | nil => rfl
  | cons a l ih =>
    by_cases h : p a
    · rw [List.dropWhile_cons_of_pos h, ih]
    · rw [List.dropWhile_cons_of_neg h, List.dropWhile_cons_of_neg h]

theorem dropWhile_fix_of_append (p : Char → Bool) (a b : List Char)
    (h : (a ++ b).dropWhile p = a ++ b) : a.dropWhile p = a := by
  cases a with
  | nil => rfl
  | cons x xs =>
    by_cases hx : p x
    · exfalso
      rw [List.cons_append, List.dropWhile_cons_of_pos hx] at h
      have hle := (List.dropWhile_sublist (l := xs ++ b) p).length_le
      rw [h] at hle
      simp at hle
    · rw [List.dropWhile_cons_of_neg hx]

theorem ltrimChars_idem (cs : List Char) : ltrimChars (ltrimChars cs) = ltrimChars cs :=
  dropWhile_idem _ cs

theorem rtrimChars_idem (cs : List Char) : rtrimChars (rtrimChars cs) = rtrimChars cs := by
  unfold rtrimChars
  rw [List.reverse_reverse, dropWhile_idem]

theorem rtrimChars_append_eq (cs : List Char) :
    rtrimChars cs ++ (cs.reverse.takeWhile isJsWhitespace).reverse = cs := by
  unfold rtrimChars
  rw [← List.reverse_append, List.takeWhile_append_dropWhile, List.reverse_reverse]

theorem ltrimChars_jsTrimChars (cs : List Char) :
    ltrimChars (jsTrimChars cs) = jsTrimChars cs := by
  unfold jsTrimChars
  apply dropWhile_fix_of_append isJsWhitespace (rtrimChars (ltrimChars cs))
    (((ltrimChars cs).reverse.takeWhile isJsWhitespace).reverse)
  rw [rtrimChars_append_eq]
  exact ltrimChars_idem cs

theorem jsTrimChars_idem (cs : List Char) :
    jsTrimChars (jsTrimChars cs) = jsTrimChars cs := by
  show rtrimChars (ltrimChars (jsTrimChars cs)) = jsTrimChars cs
  rw [ltrimChars_jsTrimChars]
  show rtrimChars (rtrimChars (ltrimChars cs)) = jsTrimChars cs
  rw [rtrimChars_idem]
  rfl

theorem mem_of_mem_jsTrimChars {cs : List Char} {c : Char}
    (h : c ∈ jsTrimChars cs) : c ∈ cs := by
  unfold jsTrimChars rtrimChars ltrimChars at h
  rw [List.mem_reverse] at h
  have h2 := (List.dropWhile_sublist isJsWhitespace).subset h
  rw [List.mem_reverse] at h2
  exact (List.dropWhile_sublist isJsWhitespace).subset h2

/-! ## C3: idempotence of sanitization -/

/-- C3 (counterexample): sanitization as implemented is NOT idempotent.
Trimming happens before NUL-stripping and truncation, so stripping a NUL
can expose leading whitespace, and truncation can expose trailing
whitespace; a second sanitization pass then removes them. -/
theorem sanitizeJsStr_not_idempotent :
    sanitizeJsStr (sanitizeJsStr "\x00 a" 100) 100 ≠ sanitizeJsStr "\x00 a" 100 ∧
    sanitizeJsStr (sanitizeJsStr "a b" 2) 2 ≠ sanitizeJsStr "a b" 2 := by
  exact ⟨by decide, by decide⟩

/-- C3 (amended): sanitization is idempotent for inputs where the two
failure modes cannot arise: strings without NUL characters whose trimmed
form fits in the length bound (so truncation is a no-op). -/
theorem sanitizeJsStr_idempotent_of_clean (s : String) (n : Nat)
    (hnul : ∀ c ∈ s.data, c ≠ '\x00')
    (hlen : (jsTrimChars s.data).length ≤ n) :
    sanitizeJsStr (sanitizeJsStr s n) n = sanitizeJsStr s n := by
  have hfilter : (jsTrimChars s.data).filter (fun c => c != '\x00')
      = jsTrimChars s.data := by
    apply List.filter_eq_self.mpr
    intro a ha
    have hne : a ≠ '\x00' := hnul a (mem_of_mem_jsTrimChars ha)
    simp [hne]
  have hsan : sanitizeChars s.data n = jsTrimChars s.data := by
    unfold sanitizeChars
    rw [hfilter, List.take_of_length_le hlen]
  unfold sanitizeJsStr
  rw [hsan]
  show String.mk (sanitizeChars (jsTrimChars s.data) n) = String.mk (jsTrimChars s.data)
  congr 1
  unfold sanitizeChars
  rw [jsTrimChars_idem, hfilter, List.take_of_length_le hlen]

/-- Witness for the amended C3 theorem at a concrete input. -/
theorem sanitizeJsStr_idempotent_witness :
    (∀ c ∈ ("  ok  " : String).data, c ≠ '\x00') ∧
    (jsTrimChars ("  ok  " : String).data).length ≤ 100 ∧
    sanitizeJsStr (sanitizeJsStr "  ok  " 100) 100 = sanitizeJsStr "  ok  " 100 :=
  ⟨by decide, by decide,
   sanitizeJsStr_idempotent_of_clean "  ok  " 100 (by decide) (by decide)⟩

/-! ## C9: identifier format -/

theorem toBase36Digit_base36 : ∀ d : Nat, d < 36 →
    isBase36LowerChar (toBase36Digit d) = true := by decide

theorem toBase36Aux_ne_nil (fuel n : Nat) : toBase36Aux fuel n ≠ [] := by
  cases fuel with
  | zero => simp [toBase36Aux]
  | succ f =>
    unfold toBase36Aux
    by_cases h : n < 36 <;> simp [h]

theorem toBase36Aux_base36 (fuel : Nat) :
    ∀ n, ∀ c ∈ toBase36Aux fuel n, isBase36LowerChar c = true := by
  induction fuel with
  | zero =>
    intro n c hc
    simp only [toBase36Aux, List.mem_singleton] at hc
    subst hc
    exact toBase36Digit_base36 _ (Nat.mod_lt _ (by omega))
  | succ f ih =>
    intro n c hc
    unfold toBase36Aux at hc
    by_cases h : n < 36
    · rw [if_pos h] at hc
      simp only [List.mem_singleton] at hc
      subst hc
      exact toBase36Digit_base36 _ h
    · rw [if_neg h] at hc
      rcases List.mem_append.mp hc with h1 | h2
      · exact ih _ _ h1
      · simp only [List.mem_singleton] at h2
        subst h2
        exact toBase36Digit_base36 _ (Nat.mod_lt _ (by omega))

theorem uuidGroup_upper : ∀ c ∈ uuidGroupChars,
    isUpperAlnumChar (jsToUpperChar c) = true := by decide

/-- C9: every generated complaint identifier decomposes as the literal
prefix COMP, a dash, a non-empty base-36 lowercase rendering of the
timestamp, a dash, and an 8-character uppercase-alphanumeric token —
that is, it matches COMP-[0-9a-z]+-[0-9A-Z]{8}. The uuid group `rnd` is
the first dash-separated group of a v4 uuid: 8 lowercase hex chars. -/
theorem createComplaintId_format (now : Nat) (rnd : List Char)
    (hlen : rnd.length = 8) (hhex : ∀ c ∈ rnd, c ∈ uuidGroupChars) :
    ∃ ts tok : List Char,
      (createComplaintId now rnd).data = "COMP-".data ++ ts ++ '-' :: tok ∧
      ts ≠ [] ∧ (∀ c ∈ ts, isBase36LowerChar c = true) ∧
      tok.length = 8 ∧ (∀ c ∈ tok, isUpperAlnumChar c = true) := by
  refine ⟨toBase36 now, rnd.map jsToUpperChar, ?_, toBase36Aux_ne_nil _ _,
    toBase36Aux_base36 _ _, by simp [hlen], ?_⟩
  · show ("COMP-" ++ String.mk (toBase36 now) ++ "-"
        ++ String.mk (rnd.map jsToUpperChar)).data = _
    simp [String.data_append]
  · intro c hc
    rcases List.mem_map.mp hc with ⟨a, ha, rfl⟩
    exact uuidGroup_upper a (hhex a ha)

/-- Witness for the C9 theorem at a concrete timestamp and uuid group. -/
theorem createComplaintId_format_witness :
    ("a1b2c3d4" : String).data.length = 8 ∧
    (∀ c ∈ ("a1b2c3d4" : String).data, c ∈ uuidGroupChars) ∧
    ∃ ts tok : List Char,
      (createComplaintId 1234567 ("a1b2c3d4" : String).data).data
        = "COMP-".data ++ ts ++ '-' :: tok ∧
      ts ≠ [] ∧ (∀ c ∈ ts, isBase36LowerChar c = true) ∧
      tok.length = 8 ∧ (∀ c ∈ tok, isUpperAlnumChar c = true) :=
  ⟨by decide, by decide,
   createComplaintId_format 1234567 _ (by decide) (by decide)⟩

/-! ## C8: the update touches only the status field -/

theorem lookupField_setField_ne (doc : List (String × JValue))
    (key k : String) (v : JValue) (h : k ≠ key) :
    lookupField (setField doc key v) k = lookupField doc k := by
  induction doc with
  | nil =>
    have hk : ¬(key = k) := fun e => h e.symm
    simp [setField, lookupField, hk]
  | cons p rest ih =>
    obtain ⟨k', v'⟩ := p
    by_cases hk : k' = key
    · subst hk
      have hk2 : ¬(k' = k) := fun e => h e.symm
      simp [setField, lookupField, hk2]
    · by_cases hkk : k' = k
      · subst hkk
        simp [setField, hk, lookupField]
      · simp [setField, hk, lookupField, hkk, ih]

theorem updateOneSetStatus_frame (store : List (List (String × JValue)))
    (id status k : String) (h : k ≠ "status") :
    (updateOneSetStatus store id status).map (fun d => lookupField d k)
      = store.map (fun d => lookupField d k) := by
  induction store with
  | nil => rfl
  | cons d ds ih =>
    unfold updateOneSetStatus
    by_cases hm : isStrVal (lookupField d "_id") id = true
    · simp [hm, lookupField_setField_ne d "status" k _ h]
    · simp only [List.map_cons]
      rw [if_neg (by simpa using hm)]
      simp [ih]

/-- C8: the status-update operation changes no field other than
`status` on any stored document: mapping any other key (in particular
`complaintId`, `department`, `program`, `title`, `details`,
`createdAt`, `reporter`) over the store commutes with the update, so
`complaintId` is never reassigned. -/
theorem updateComplaint_frame (store : List (List (String × JValue)))
    (id action k : String) (h : k ≠ "status") :
    (updateComplaintHandler store id action).map (fun d => lookupField d k)
      = store.map (fun d => lookupField d k) := by
  unfold updateComplaintHandler
  exact updateOneSetStatus_frame store id _ k h

/-- Witness for the C8 theorem on a concrete store and key. -/
theorem updateComplaint_frame_witness :
    ("complaintId" : String) ≠ "status" ∧
    (updateComplaintHandler
        [[("_id", JValue.jstr "a"), ("complaintId", JValue.jstr "COMP-1-X"),
          ("status", JValue.jstr "pending")]] "a" "approve").map
      (fun d => lookupField d "complaintId")
    = [[("_id", JValue.jstr "a"), ("complaintId", JValue.jstr "COMP-1-X"),
        ("status", JValue.jstr "pending")]].map
      (fun d => lookupField d "complaintId") :=
  ⟨by decide, updateComplaint_frame _ "a" "approve" "complaintId" (by decide)⟩

/-! ## C6: status transitions -/

/-- C6 (counterexample): the update handler enforces no transition
discipline. It moves an `approved` complaint to `rejected`, and it
stores an arbitrary action string (here `banana`) as the status, a value
outside the documented enum. -/
theorem updateComplaint_transitions_counterexample :
    lookupField ((updateComplaintHandler
        [[("_id", JValue.jstr "a"), ("status", JValue.jstr "approved")]]
        "a" "reject").headD []) "status" = some (JValue.jstr "rejected") ∧
    lookupField ((updateComplaintHandler
        [[("_id", JValue.jstr "a"), ("status", JValue.jstr "pending")]]
        "a" "banana").headD []) "status" = some (JValue.jstr "banana") ∧
    ("banana" : String) ∉ (["pending", "approved", "rejected"] : List String) :=
  ⟨rfl, rfl, by decide⟩

/-- C6 (amended): the update operation unconditionally sets the matched
document status to the mapped action — `approved` for `approve`,
`rejected` for `reject`, and the raw action string for anything else —
regardless of the current status value. -/
theorem updateComplaint_sets_mapped_status (action : String)
    (doc : List (String × JValue)) (id : String)
    (hm : isStrVal (lookupField doc "_id") id = true) :
    updateComplaintHandler [doc] id action
        = [setField doc "status" (.jstr (mapActionToStatus action))] ∧
    mapActionToStatus "approve" = "approved" ∧
    mapActionToStatus "reject" = "rejected" ∧
    (action = "approve" ∨ action = "reject" ∨ mapActionToStatus action = action) := by
  refine ⟨?_, rfl, rfl, ?_⟩
  · simp [updateComplaintHandler, updateOneSetStatus, hm]
  · by_cases h1 : action = "approve"
    · exact Or.inl h1
    · by_cases h2 : action = "reject"
      · exact Or.inr (Or.inl h2)
      · exact Or.inr (Or.inr (by simp [mapActionToStatus, h1, h2]))

/-- Witness for the amended C6 theorem on a concrete document. -/
theorem updateComplaint_sets_mapped_status_witness :
    isStrVal (lookupField [(("_id" : String), JValue.jstr "a"),
        (("status" : String), JValue.jstr "approved")] "_id") "a" = true ∧
    (updateComplaintHandler
        [[("_id", JValue.jstr "a"), ("status", JValue.jstr "approved")]]
        "a" "reject"
      = [setField [("_id", JValue.jstr "a"), ("status", JValue.jstr "approved")]
          "status" (.jstr (mapActionToStatus "reject"))] ∧
     mapActionToStatus "approve" = "approved" ∧
     mapActionToStatus "reject" = "rejected" ∧
     (("reject" : String) = "approve" ∨ ("reject" : String) = "reject" ∨
       mapActionToStatus "reject" = "reject")) :=
  ⟨by decide,
   updateComplaint_sets_mapped_status "reject"
     [("_id", JValue.jstr "a"), ("status", JValue.jstr "approved")] "a" (by decide)⟩

/-! ## C10: fetch-by-identifier projects safe fields only -/

/-- C10: for every stored complaint found by identifier, the fetch
response carries exactly the keys `complaintId`, `title`, `status`,
`createdAt` — in particular never `details`, `department`, `program` or
`reporter` — and when the stored record has no `status` field the
returned status is the string `pending`. -/
theorem getComplaintById_safe_fields (store : List (List (String × JValue)))
    (c : String) (complaint : List (String × JValue))
    (hc : c ≠ "") (hfind : findOneByComplaintId store c = some complaint) :
    ∃ body,
      getComplaintByIdHandler store (some c) = .ok body ∧
      body.map Prod.fst = ["complaintId", "title", "status", "createdAt"] ∧
      ("details" ∉ body.map Prod.fst ∧ "department" ∉ body.map Prod.fst ∧
       "program" ∉ body.map Prod.fst ∧ "reporter" ∉ body.map Prod.fst) ∧
      (lookupField complaint "status" = none →
        List.lookup "status" body = some (some (.jstr "pending"))) := by
  refine ⟨[("complaintId", lookupField complaint "complaintId"),
           ("title", lookupField complaint "title"),
           ("status", some (jsOrDefault (lookupField complaint "status")
                                        (.jstr "pending"))),
           ("createdAt", lookupField complaint "createdAt")], ?_, rfl, ?_, ?_⟩
  · simp only [getComplaintByIdHandler]
    rw [if_neg hc, hfind]
  · have hkeys : List.map Prod.fst
        ([("complaintId", lookupField complaint "complaintId"),
          ("title", lookupField complaint "title"),
          ("status", some (jsOrDefault (lookupField complaint "status")
                                       (.jstr "pending"))),
          ("createdAt", lookupField complaint "createdAt")]
          : List (String × Option JValue))
        = ["complaintId", "title", "status", "createdAt"] := rfl
    rw [hkeys]
    exact ⟨by decide, by decide, by decide, by decide⟩
  · intro h
    rw [h]
    rfl

/-- Witness for the C10 theorem: a stored record with no status field. -/
theorem getComplaintById_safe_fields_witness :
    ("COMP-1-X" : String) ≠ "" ∧
    findOneByComplaintId
        [[("complaintId", JValue.jstr "COMP-1-X"), ("title", JValue.jstr "T"),
          ("details", JValue.jstr "secret details")]] "COMP-1-X"
      = some [("complaintId", JValue.jstr "COMP-1-X"), ("title", JValue.jstr "T"),
              ("details", JValue.jstr "secret details")] ∧
    ∃ body,
      getComplaintByIdHandler
          [[("complaintId", JValue.jstr "COMP-1-X"), ("title", JValue.jstr "T"),
            ("details", JValue.jstr "secret details")]] (some "COMP-1-X") = .ok body ∧
      body.map Prod.fst = ["complaintId", "title", "status", "createdAt"] ∧
      ("details" ∉ body.map Prod.fst ∧ "department" ∉ body.map Prod.fst ∧
       "program" ∉ body.map Prod.fst ∧ "reporter" ∉ body.map Prod.fst) ∧
      (lookupField [("complaintId", JValue.jstr "COMP-1-X"),
          ("title", JValue.jstr "T"),
          ("details", JValue.jstr "secret details")] "status" = none →
        List.lookup "status" body = some (some (.jstr "pending"))) :=
  ⟨by decide, rfl,
   getComplaintById_safe_fields _ "COMP-1-X" _ (by decide) rfl⟩

/-! ## C2: rate limiting -/

theorem rateLookup_rateSet_self (st : RateState) (ip : String) (e : RateEntry) :
    rateLookup (rateSet st ip e) ip = some e := by
  induction st with
  | nil => simp [rateSet, rateLookup]
  | cons p rest ih =>
    obtain ⟨k, e'⟩ := p
    by_cases hk : k = ip
    · simp [rateSet, hk, rateLookup]
    · simp [rateSet, hk, rateLookup, ih]

theorem isRateLimited_fresh (st : RateState) (ip : String) (now : Int)
    (h : rateLookup st ip = none) :
    isRateLimited st ip now = (false, rateSet st ip ⟨1, now⟩) := by
  unfold isRateLimited
  rw [h]
  show (if now - now > RATE_LIMIT_WINDOW_MS then _ else _) = _
  rw [if_neg (by unfold RATE_LIMIT_WINDOW_MS; omega)]
  rfl

theorem isRateLimited_within (st : RateState) (ip : String) (now : Int)
    (c : Nat) (f : Int) (h : rateLookup st ip = some ⟨c, f⟩)
    (hw : now - f ≤ 60000) :
    isRateLimited st ip now = (decide (c + 1 > 6), rateSet st ip ⟨c + 1, f⟩) := by
  unfold isRateLimited
  rw [h]
  show (if now - f > RATE_LIMIT_WINDOW_MS then _ else _) = _
  rw [if_neg (by unfold RATE_LIMIT_WINDOW_MS; omega)]
  rfl

theorem isRateLimited_stale (st : RateState) (ip : String) (now : Int)
    (c : Nat) (f : Int) (h : rateLookup st ip = some ⟨c, f⟩)
    (hw : now - f > 60000) :
    isRateLimited st ip now = (false, rateSet st ip ⟨1, now⟩) := by
  unfold isRateLimited
  rw [h]
  show (if now - f > RATE_LIMIT_WINDOW_MS then _ else _) = _
  rw [if_pos (by unfold RATE_LIMIT_WINDOW_MS; omega)]

/-- C2: rate limiting. For a fresh caller key, seven calls all within
60 seconds of the first are decided `[no, no, no, no, no, no, LIMITED]`:
the 7th call in the window is rejected (the handler then answers 429,
see the conjunct on `submitHandler`). A call 61+ seconds after the
stored window start is not limited, and it resets the counter to 1 and
restarts the window at the call time. -/
theorem rateLimit_seventh_call_and_reset :
    (∀ (ip : String) (st0 : RateState) (t1 t2 t3 t4 t5 t6 t7 : Int),
      rateLookup st0 ip = none →
      t1 ≤ t2 → t2 ≤ t3 → t3 ≤ t4 → t4 ≤ t5 → t5 ≤ t6 → t6 ≤ t7 →
      t7 - t1 ≤ 60000 →
      (runCalls ip [t1, t2, t3, t4, t5, t6, t7] st0).1
        = [false, false, false, false, false, false, true]) ∧
    (∀ (st : RateState) (ip : String) (c : Nat) (f now : Int),
      rateLookup st ip = some ⟨c, f⟩ → now - f ≥ 61000 →
      isRateLimited st ip now = (false, rateSet st ip ⟨1, now⟩) ∧
      rateLookup (isRateLimited st ip now).2 ip = some ⟨1, now⟩) ∧
    (∀ (isEmail : String → Bool) (fs ps : String) (parse : Option JValue)
       (ip : String) (st : RateState) (now : Nat) (rnd : List Char),
      (isRateLimited st ip (now : Int)).1 = true →
      ¬(fs ≠ "" ∧ ps ≠ fs) →
      (submitHandler isEmail fs ps "POST" parse ip st now rnd).response
        = .rejected 429 "Too many submissions. Try again later.") := by
  refine ⟨?_, ?_, ?_⟩
  · intro ip st0 t1 t2 t3 t4 t5 t6 t7 h0 h12 h23 h34 h45 h56 h67 hw
    have e1 := isRateLimited_fresh st0 ip t1 h0
    have l1 := rateLookup_rateSet_self st0 ip ⟨1, t1⟩
    have e2 := isRateLimited_within _ ip t2 1 t1 l1 (by omega)
    have l2 := rateLookup_rateSet_self (rateSet st0 ip ⟨1, t1⟩) ip ⟨1 + 1, t1⟩
    have e3 := isRateLimited_within _ ip t3 (1 + 1) t1 l2 (by omega)
    have l3 := rateLookup_rateSet_self (rateSet (rateSet st0 ip ⟨1, t1⟩) ip
      ⟨1 + 1, t1⟩) ip ⟨1 + 1 + 1, t1⟩
    have e4 := isRateLimited_within _ ip t4 (1 + 1 + 1) t1 l3 (by omega)
    have l4 := rateLookup_rateSet_self (rateSet (rateSet (rateSet st0 ip ⟨1, t1⟩)
      ip ⟨1 + 1, t1⟩) ip ⟨1 + 1 + 1, t1⟩) ip ⟨1 + 1 + 1 + 1, t1⟩
    have e5 := isRateLimited_within _ ip t5 (1 + 1 + 1 + 1) t1 l4 (by omega)
    have l5 := rateLookup_rateSet_self (rateSet (rateSet (rateSet (rateSet st0 ip
      ⟨1, t1⟩) ip ⟨1 + 1, t1⟩) ip ⟨1 + 1 + 1, t1⟩) ip ⟨1 + 1 + 1 + 1, t1⟩) ip
      ⟨1 + 1 + 1 + 1 + 1, t1⟩
    have e6 := isRateLimited_within _ ip t6 (1 + 1 + 1 + 1 + 1) t1 l5 (by omega)
    have l6 := rateLookup_rateSet_self (rateSet (rateSet (rateSet (rateSet
      (rateSet st0 ip ⟨1, t1⟩) ip ⟨1 + 1, t1⟩) ip ⟨1 + 1 + 1, t1⟩) ip
      ⟨1 + 1 + 1 + 1, t1⟩) ip ⟨1 + 1 + 1 + 1 + 1, t1⟩) ip ⟨1 + 1 + 1 + 1 + 1 + 1, t1⟩
    have e7 := isRateLimited_within _ ip t7 (1 + 1 + 1 + 1 + 1 + 1) t1 l6 (by omega)
    simp only [runCalls, e1, e2, e3, e4, e5, e6, e7]
    decide
  · intro st ip c f now h hge
    have e := isRateLimited_stale st ip now c f h (by omega)
    rw [e]
    exact ⟨rfl, rateLookup_rateSet_self st ip ⟨1, now⟩⟩
  · intro isEmail fs ps parse ip st now rnd hlim hsec
    unfold submitHandler
    rw [if_neg (by decide : ¬("POST" : String) = "OPTIONS"),
        if_neg (by simp : ¬("POST" : String) ≠ "POST"), if_neg hsec]
    simp [hlim]

/-- Witness for the C2 theorem: a concrete run of seven calls, a
concrete stale-window reset, and a concrete 429 response. -/
theorem rateLimit_seventh_call_and_reset_witness :
    (runCalls "k" [0, 1, 2, 3, 4, 5, 6] []).1
      = [false, false, false, false, false, false, true] ∧
    (isRateLimited [("k", ⟨3, 0⟩)] "k" 61000
      = (false, rateSet [("k", ⟨3, 0⟩)] "k" ⟨1, 61000⟩) ∧
     rateLookup (isRateLimited [("k", ⟨3, 0⟩)] "k" 61000).2 "k" = some ⟨1, 61000⟩) ∧
    (submitHandler (fun _ => true) "" "" "POST" none "k"
        [("k", ⟨6, 0⟩)] 5 []).response
      = .rejected 429 "Too many submissions. Try again later." :=
  ⟨rateLimit_seventh_call_and_reset.1 "k" [] 0 1 2 3 4 5 6 rfl (by omega)
     (by omega) (by omega) (by omega) (by omega) (by omega) (by omega),
   rateLimit_seventh_call_and_reset.2.1 [("k", ⟨3, 0⟩)] "k" 3 0 61000 rfl
     (by omega),
   rateLimit_seventh_call_and_reset.2.2 (fun _ => true) "" "" none "k"
     [("k", ⟨6, 0⟩)] 5 [] (by decide) (by simp)⟩

/-! ## C7: rejections happen before any storage traffic -/

/-- C7: whenever the submit handler answers with a rejection (401, 429,
or any 400), it has attempted no database connection and no insert, so
the stored collection is unchanged. -/
theorem submit_rejected_no_db (isEmail : String → Bool)
    (fs ps m : String) (parse : Option JValue) (ip : String)
    (st : RateState) (now : Nat) (rnd : List Char) (code : Nat) (err : String)
    (h : (submitHandler isEmail fs ps m parse ip st now rnd).response
          = .rejected code err) :
    (submitHandler isEmail fs ps m parse ip st now rnd).effects = [] := by
  revert h
  simp only [submitHandler]
  repeat' split
  all_goals intro h
  all_goals first
    | rfl
    | simp at h

/-- Witness for the C7 theorem: a concrete rejected submission. -/
theorem submit_rejected_no_db_witness :
    (submitHandler (fun _ => true) "" "" "POST" (some (.jobj [])) "k" [] 0
        []).response = .rejected 400 "Missing required fields" ∧
    (submitHandler (fun _ => true) "" "" "POST" (some (.jobj [])) "k" [] 0
        []).effects = [] :=
  ⟨by decide,
   submit_rejected_no_db (fun _ => true) "" "" "POST" (some (.jobj [])) "k"
     [] 0 [] 400 "Missing required fields" (by decide)⟩

/-! ## C1: when the stored record carries a reporter key -/

/-- C1 (counterexample): a payload whose reporter object is present but
whose sub-fields all sanitize to empty does NOT yield a record without a
reporter key. The handler sets the reporter variable to an (empty)
object, which is truthy in JS, so the spread attaches a reporter key
holding an empty object. -/
theorem submit_empty_reporter_still_stored :
    (submitHandler (fun _ => true) "" "" "POST"
        (some (.jobj [("department", .jstr "CS"),
                      ("program", .jstr "BTech"),
                      ("title", .jstr "Broken AC"),
                      ("details", .jstr "The AC has been broken for weeks"),
                      ("reporter", .jobj [("name", .jstr "   ")])]))
        "1.2.3.4" [] 0 ("a1b2c3d4" : String).data).effects
      = [.connect, .insertOne
          ⟨"COMP-0-A1B2C3D4", "CS", "BTech", "Broken AC",
           "The AC has been broken for weeks", "pending", 0, 0,
           some ⟨none, none, none⟩⟩] ∧
    (some (⟨none, none, none⟩ : Reporter)) ≠ (none : Option Reporter) :=
  ⟨by decide, by decide⟩

/-- C1 (amended): the inserted record carries a reporter key exactly
when the payload reporter field is a truthy value of JS object type;
within the reporter object, only sub-fields that sanitized to non-empty
are attached, but an all-empty reporter is stored as an empty object
rather than omitted. -/
theorem submit_reporter_key_iff (isEmail : String → Bool)
    (fs ps m : String) (parse : Option JValue) (ip : String)
    (st : RateState) (now : Nat) (rnd : List Char) (doc : ComplaintDoc)
    (h : DbEffect.insertOne doc
          ∈ (submitHandler isEmail fs ps m parse ip st now rnd).effects) :
    (doc.reporter ≠ none ↔ reporterCheckOfParse parse = true) := by
  revert h
  simp only [submitHandler]
  repeat' split
  all_goals intro h
  all_goals simp_all [reporterCheckOfParse]

/-- Witness for the amended C1 theorem at a concrete insert. -/
theorem submit_reporter_key_iff_witness :
    (DbEffect.insertOne
        ⟨"COMP-0-A1B2C3D4", "CS", "BTech", "Broken AC",
         "The AC has been broken for weeks", "pending", 0, 0,
         some ⟨none, none, none⟩⟩
      ∈ (submitHandler (fun _ => true) "" "" "POST"
          (some (.jobj [("department", .jstr "CS"),
                        ("program", .jstr "BTech"),
                        ("title", .jstr "Broken AC"),
                        ("details", .jstr "The AC has been broken for weeks"),
                        ("reporter", .jobj [("username", .jstr "")])]))
          "1.2.3.4" [] 0 ("a1b2c3d4" : String).data).effects) ∧
    ((some (⟨none, none, none⟩ : Reporter) ≠ none) ↔
      reporterCheckOfParse
        (some (.jobj [("department", .jstr "CS"),
                      ("program", .jstr "BTech"),
                      ("title", .jstr "Broken AC"),
                      ("details", .jstr "The AC has been broken for weeks"),
                      ("reporter", .jobj [("username", .jstr "")])])) = true) :=
  ⟨by decide,
   submit_reporter_key_iff (fun _ => true) "" "" "POST"
     (some (.jobj [("department", .jstr "CS"),
                   ("program", .jstr "BTech"),
                   ("title", .jstr "Broken AC"),
                   ("details", .jstr "The AC has been broken for weeks"),
                   ("reporter", .jobj [("username", .jstr "")])]))
     "1.2.3.4" [] 0 ("a1b2c3d4" : String).data
     ⟨"COMP-0-A1B2C3D4", "CS", "BTech", "Broken AC",
      "The AC has been broken for weeks", "pending", 0, 0,
      some ⟨none, none, none⟩⟩ (by decide)⟩

/-! ## C4: invalid reporter email rejects regardless of other fields -/

/-- C4: for any payload whose reporter passes the object guard and whose
sanitized reporter email is non-empty and fails the email validator, the
submit handler answers 400 Invalid reporter email — with no hypothesis
at all on `department`, `program`, `title` or `details`, so the
rejection applies to payloads with missing required fields too: the
email check precedes the missing-required-fields check. -/
theorem submit_invalid_email_rejected (isEmail : String → Bool)
    (fs ps : String) (payload : JValue) (ip : String)
    (st : RateState) (now : Nat) (rnd : List Char)
    (hsec : ¬(fs ≠ "" ∧ ps ≠ fs))
    (hrl : (isRateLimited st ip (now : Int)).1 = false)
    (hrep : reporterObjCheck (jsGet payload "reporter") = true)
    (hne : reporterEmailOf payload ≠ "")
    (hbad : isEmail (reporterEmailOf payload) = false) :
    (submitHandler isEmail fs ps "POST" (some payload) ip st now rnd).response
      = .rejected 400 "Invalid reporter email" := by
  cases payload with
  | jobj fields =>
    unfold reporterEmailOf at hne hbad
    unfold submitHandler
    rw [if_neg (by decide : ¬("POST" : String) = "OPTIONS"),
        if_neg (by simp : ¬("POST" : String) ≠ "POST"), if_neg hsec]
    simp [hrl, hrep, hne, hbad]
  | jnull => simp [jsGet, reporterObjCheck] at hrep
  | jbool b => simp [jsGet, reporterObjCheck] at hrep
  | jnum n => simp [jsGet, reporterObjCheck] at hrep
  | jstr s => simp [jsGet, reporterObjCheck] at hrep
  | jarr elems => simp [jsGet, reporterObjCheck] at hrep

/-- Witness for the C4 theorem: an invalid email in a payload that is
missing every required field still draws the email rejection. -/
theorem submit_invalid_email_rejected_witness :
    (¬(("" : String) ≠ "" ∧ ("" : String) ≠ "")) ∧
    (isRateLimited [] "k" ((0 : Nat) : Int)).1 = false ∧
    reporterObjCheck (jsGet
      (.jobj [("reporter", .jobj [("email", .jstr "notanemail")])])
      "reporter") = true ∧
    reporterEmailOf
      (.jobj [("reporter", .jobj [("email", .jstr "notanemail")])]) ≠ "" ∧
    (submitHandler (fun _ => false) "" "" "POST"
        (some (.jobj [("reporter", .jobj [("email", .jstr "notanemail")])]))
        "k" [] 0 []).response
      = .rejected 400 "Invalid reporter email" :=
  ⟨by simp, by decide, by decide, by decide,
   submit_invalid_email_rejected (fun _ => false) "" ""
     (.jobj [("reporter", .jobj [("email", .jstr "notanemail")])])
     "k" [] 0 [] (by simp) (by decide) (by decide) (by decide) rfl⟩

/-! ## C5: what happens to bodies that are not objects -/

/-- C5 (counterexample): a body that is valid JSON but not an object —
here the bare number 42 — is NOT rejected as invalid payload: it flows
into field validation and draws Missing required fields instead. -/
theorem submit_nonobject_not_invalid_payload :
    (submitHandler (fun _ => true) "" "" "POST" (some (.jnum 42)) "k" [] 0
        []).response = .rejected 400 "Missing required fields" ∧
    (submitHandler (fun _ => true) "" "" "POST" (some (.jnum 42)) "k" [] 0
        []).response ≠ .rejected 400 "Invalid JSON" :=
  ⟨by decide, by decide⟩

/-- C5 (amended): a body that fails to parse draws 400 Invalid JSON; a
body parsing to a non-object, non-null value (bare number, string,
boolean or array) falls through to field validation and draws 400
Missing required fields; a body parsing to JSON null makes the handler
throw (property access on null), rather than answer 400. -/
theorem submit_payload_parse_behavior (isEmail : String → Bool)
    (fs ps : String) (v : JValue) (ip : String) (st : RateState)
    (now : Nat) (rnd : List Char)
    (hsec : ¬(fs ≠ "" ∧ ps ≠ fs))
    (hrl : (isRateLimited st ip (now : Int)).1 = false) :
    ((submitHandler isEmail fs ps "POST" none ip st now rnd).response
        = .rejected 400 "Invalid JSON") ∧
    (v ≠ .jnull → (∀ fields, v ≠ .jobj fields) →
      (submitHandler isEmail fs ps "POST" (some v) ip st now rnd).response
        = .rejected 400 "Missing required fields") ∧
    ((submitHandler isEmail fs ps "POST" (some .jnull) ip st now rnd).response
        = .thrown) := by
  refine ⟨?_, ?_, ?_⟩
  · unfold submitHandler
    rw [if_neg (by decide : ¬("POST" : String) = "OPTIONS"),
        if_neg (by simp : ¬("POST" : String) ≠ "POST"), if_neg hsec]
    simp [hrl]
  · intro hnn hobj
    cases v with
    | jnull => exact absurd rfl hnn
    | jobj fields => exact absurd rfl (hobj fields)
    | jbool b =>
      unfold submitHandler
      rw [if_neg (by decide : ¬("POST" : String) = "OPTIONS"),
          if_neg (by simp : ¬("POST" : String) ≠ "POST"), if_neg hsec]
      simp [hrl, jsGet, sanitizeString, reporterObjCheck]
    | jnum n =>
      unfold submitHandler
      rw [if_neg (by decide : ¬("POST" : String) = "OPTIONS"),
          if_neg (by simp : ¬("POST" : String) ≠ "POST"), if_neg hsec]
      simp [hrl, jsGet, sanitizeString, reporterObjCheck]
    | jstr s =>
      unfold submitHandler
      rw [if_neg (by decide : ¬("POST" : String) = "OPTIONS"),
          if_neg (by simp : ¬("POST" : String) ≠ "POST"), if_neg hsec]
      simp [hrl, jsGet, sanitizeString, reporterObjCheck]
    | jarr elems =>
      unfold submitHandler
      rw [if_neg (by decide : ¬("POST" : String) = "OPTIONS"),
          if_neg (by simp : ¬("POST" : String) ≠ "POST"), if_neg hsec]
      simp [hrl, jsGet, sanitizeString, reporterObjCheck]
  · unfold submitHandler
    rw [if_neg (by decide : ¬("POST" : String) = "OPTIONS"),
        if_neg (by simp : ¬("POST" : String) ≠ "POST"), if_neg hsec]
    simp [hrl]

/-- Witness for the amended C5 theorem: a bare-string body. -/
theorem submit_payload_parse_behavior_witness :
    (¬(("" : String) ≠ "" ∧ ("" : String) ≠ "")) ∧
    (isRateLimited [] "k" ((0 : Nat) : Int)).1 = false ∧
    (JValue.jstr "hello" ≠ JValue.jnull) ∧
    (submitHandler (fun _ => true) "" "" "POST" (some (.jstr "hello")) "k"
        [] 0 []).response = .rejected 400 "Missing required fields" :=
  ⟨by simp, by decide, nofun,
   (submit_payload_parse_behavior (fun _ => true) "" "" (.jstr "hello") "k"
      [] 0 [] (by simp) (by decide)).2.1 nofun (fun _ => nofun)⟩

end ComplaintSite
